import Mathlib

/-
Verification of the review-slot-guard-bot common library.

The development shallowly embeds the Go sources:
  * pkg/models/models.go        — status constants and classifiers;
  * pkg/ydb (store queries)     — review-request rows and the store's
    INSERT/UPDATE operations, modelled as functions on a row, and the
    project-family / whitelist tables, modelled as lists of rows;
  * pkg/timeutil/time.go        — deadline arithmetic, with Go's 64-bit
    signed wraparound made explicit where the source multiplies a
    minute count into nanoseconds;
  * pkg/lockbox/lockbox.go      — the credential cache, modelled once
    sequentially (one call against an explicit cache state, with the
    outcome of the collaborator fetch an explicit argument) and once as
    an interleaving model whose atomic steps are the code's
    lock-protected regions.

Timestamps are unbounded integers (Unix nanoseconds or seconds as noted
per definition); optional columns are `Option`; fallible operations
return an explicit error component.
-/

namespace GuardBot

/-! ## pkg/models/models.go — status constants and classifiers -/

def StatusUnknownProjectReview : String := "UNKNOWN_PROJECT_REVIEW"

def StatusKnownProjectReview : String := "KNOWN_PROJECT_REVIEW"

def StatusWhitelisted : String := "WHITELISTED"

def StatusNotWhitelisted : String := "NOT_WHITELISTED"

def StatusNeedToApprove : String := "NEED_TO_APPROVE"

def StatusWaitingForApprove : String := "WAITING_FOR_APPROVE"

def StatusApproved : String := "APPROVED"

def StatusCancelled : String := "CANCELLED"

def StatusAutoCancelled : String := "AUTO_CANCELLED"

def StatusAutoCancelledNotWhitelisted : String := "AUTO_CANCELLED_NOT_WHITELISTED"

def EntryTypeFamily : String := "FAMILY"

def EntryTypeProject : String := "PROJECT"

/-- `IsIntermediateStatus` from models.go: the six mutable statuses. -/
def IsIntermediateStatus (status : String) : Bool :=
  if status = StatusUnknownProjectReview ∨ status = StatusKnownProjectReview ∨
     status = StatusWhitelisted ∨ status = StatusNotWhitelisted ∨
     status = StatusNeedToApprove ∨ status = StatusWaitingForApprove
  then true else false

/-- `IsFinalStatus` from models.go: the four statuses documented as immutable. -/
def IsFinalStatus (status : String) : Bool :=
  if status = StatusApproved ∨ status = StatusCancelled ∨
     status = StatusAutoCancelled ∨ status = StatusAutoCancelledNotWhitelisted
  then true else false

/-- `IsValidStatus` from models.go. -/
def IsValidStatus (status : String) : Bool :=
  IsIntermediateStatus status || IsFinalStatus status

/-! ## review_requests rows and the store's write operations

A `ReviewRequestRow` is one persisted row of the `review_requests` table
(schema.go): the optional columns are `Option`, timestamps are Unix
seconds. Each store operation of pkg/ydb acts on the row addressed by
its `WHERE id = $id` clause, so the operations are modelled as functions
on a single row. -/

structure ReviewRequestRow where
  id : String
  reviewer_login : String
  notification_id : Option String
  project_name : Option String
  family_label : Option String
  review_start_time : Int
  calendar_slot_id : String
  decision_deadline : Option Int
  non_whitelist_cancel_at : Option Int
  telegram_message_id : Option String
  status : String
  created_at : Int
  decided_at : Option Int
deriving DecidableEq, Repr

/-- `CreateReviewRequest`: the INSERT names only id, reviewer_login,
review_start_time, calendar_slot_id, status and created_at, so every
optional column of the new row is NULL. -/
def CreateReviewRequest (id reviewerLogin : String) (reviewStartTime : Int)
    (calendarSlotID status : String) (createdAt : Int) : ReviewRequestRow :=
  { id := id
    reviewer_login := reviewerLogin
    notification_id := none
    project_name := none
    family_label := none
    review_start_time := reviewStartTime
    calendar_slot_id := calendarSlotID
    decision_deadline := none
    non_whitelist_cancel_at := none
    telegram_message_id := none
    status := status
    created_at := createdAt
    decided_at := none }

/-- `UpdateReviewRequestStatus`: `UPDATE review_requests SET status = $status,
decided_at = $decided_at WHERE id = $id`. The UPDATE carries no condition on
the row's current status. -/
def UpdateReviewRequestStatus (r : ReviewRequestRow) (status : String)
    (decidedAt : Option Int) : ReviewRequestRow :=
  { r with status := status, decided_at := decidedAt }

/-- `UpdateReviewRequestWithProjectInfo`: sets project_name, family_label,
notification_id and status := KNOWN_PROJECT_REVIEW. -/
def UpdateReviewRequestWithProjectInfo (r : ReviewRequestRow)
    (projectName familyLabel notificationID : String) : ReviewRequestRow :=
  { r with project_name := some projectName
           family_label := some familyLabel
           notification_id := some notificationID
           status := StatusKnownProjectReview }

/-- `UpdateReviewRequestToWaitingForApprove`: sets decision_deadline,
telegram_message_id and status := WAITING_FOR_APPROVE; it does not touch
non_whitelist_cancel_at. -/
def UpdateReviewRequestToWaitingForApprove (r : ReviewRequestRow)
    (decisionDeadline : Int) (telegramMessageID : String) : ReviewRequestRow :=
  { r with decision_deadline := some decisionDeadline
           telegram_message_id := some telegramMessageID
           status := StatusWaitingForApprove }

/-- `UpdateReviewRequestToNotWhitelisted`: sets non_whitelist_cancel_at and
status := NOT_WHITELISTED; it does not touch decision_deadline. -/
def UpdateReviewRequestToNotWhitelisted (r : ReviewRequestRow)
    (nonWhitelistCancelAt : Int) : ReviewRequestRow :=
  { r with non_whitelist_cancel_at := some nonWhitelistCancelAt
           status := StatusNotWhitelisted }

/-- One store UPDATE against a review-request row, as issued by callers of
pkg/ydb. -/
inductive StoreUpdate
  | setStatus (status : String) (decidedAt : Option Int)
  | setProjectInfo (projectName familyLabel notificationID : String)
  | toWaitingForApprove (decisionDeadline : Int) (telegramMessageID : String)
  | toNotWhitelisted (nonWhitelistCancelAt : Int)
deriving DecidableEq, Repr

def applyUpdate (r : ReviewRequestRow) : StoreUpdate → ReviewRequestRow
  | .setStatus status decidedAt => UpdateReviewRequestStatus r status decidedAt
  | .setProjectInfo p f n => UpdateReviewRequestWithProjectInfo r p f n
  | .toWaitingForApprove d t => UpdateReviewRequestToWaitingForApprove r d t
  | .toNotWhitelisted c => UpdateReviewRequestToNotWhitelisted r c

/-- A row reachable from a freshly created one by a sequence of store
updates. -/
def runUpdates (r : ReviewRequestRow) (ops : List StoreUpdate) : ReviewRequestRow :=
  ops.foldl applyUpdate r

def isWaitingUpdate : StoreUpdate → Bool
  | .toWaitingForApprove _ _ => true
  | _ => false

def isNotWhitelistedUpdate : StoreUpdate → Bool
  | .toNotWhitelisted _ => true
  | _ => false

/-- Whether a sequence of updates contains a `toWaitingForApprove` write. -/
def hasWaitingUpdate (ops : List StoreUpdate) : Bool :=
  ops.any isWaitingUpdate

/-- Whether a sequence of updates contains a `toNotWhitelisted` write. -/
def hasNotWhitelistedUpdate (ops : List StoreUpdate) : Bool :=
  ops.any isNotWhitelistedUpdate

/-! ## user_project_whitelist — `IsInWhitelist`

The table is a list of rows; the SQL `COUNT(*)` with the reviewer /
entry-type predicate becomes `List.countP` of the row predicate, and the
function returns `count > 0`. -/

structure WhitelistEntry where
  ReviewerLogin : String
  EntryType : String
  Name : String
deriving DecidableEq, Repr

/-- The WHERE clause of `IsInWhitelist`: the row belongs to the reviewer and
is a PROJECT entry named like the project or a FAMILY entry named like the
family label. -/
def whitelistRowMatches (reviewerLogin projectName familyLabel : String)
    (e : WhitelistEntry) : Bool :=
  e.ReviewerLogin == reviewerLogin &&
    ((e.EntryType == EntryTypeProject && e.Name == projectName) ||
     (e.EntryType == EntryTypeFamily && e.Name == familyLabel))

/-- `IsInWhitelist` from pkg/ydb: `SELECT COUNT(*) ... ; return count > 0`. -/
def IsInWhitelist (wl : List WhitelistEntry)
    (reviewerLogin projectName familyLabel : String) : Bool :=
  decide (0 < wl.countP (whitelistRowMatches reviewerLogin projectName familyLabel))

/-! ## project_families — `UpsertProjectFamilies` / `GetAllProjectFamilies`

The table has `PRIMARY KEY (family_label, project_name)`, so a row IS its
key and an INSERT of an already-present row fails, aborting the
transaction. `UpsertProjectFamilies` runs DELETE-all followed by the
INSERTs inside one transaction: the new contents become visible only if
every insert succeeds, otherwise the old contents stay visible. -/

structure ProjectFamily where
  FamilyLabel : String
  ProjectName : String
deriving DecidableEq, Repr

/-- The INSERT loop of `UpsertProjectFamilies`, run against the (cleared)
table: each INSERT fails if the primary key is already present. `none`
models the transaction aborting on a failed insert. -/
def insertFamiliesLoop : List ProjectFamily → List ProjectFamily →
    Option (List ProjectFamily)
  | table, [] => some table
  | table, f :: rest =>
      if f ∈ table then none else insertFamiliesLoop (table ++ [f]) rest

/-- `UpsertProjectFamilies`: DELETE-all then insert each family, in one
transaction. Returns (success flag, table contents now visible): the new
contents on commit, the untouched old contents on abort. -/
def UpsertProjectFamilies (families table : List ProjectFamily) :
    Bool × List ProjectFamily :=
  match insertFamiliesLoop [] families with
  | some newTable => (true, newTable)
  | none => (false, table)

/-- `GetAllProjectFamilies`: full scan of the table. -/
def GetAllProjectFamilies (table : List ProjectFamily) : List ProjectFamily :=
  table

/-! ## pkg/timeutil/time.go — deadline arithmetic

A `time.Time` is modelled as unbounded Unix nanoseconds, but
`time.Duration` is Go's 64-bit signed nanosecond count: negating a
minute count and scaling it by `time.Minute` wraps modulo 2^64, which
`int64Wrap` makes explicit. -/

/-- Reduce an integer to the value of the two's-complement int64 holding it. -/
def int64Wrap (n : Int) : Int :=
  (n + 2 ^ 63) % 2 ^ 64 - 2 ^ 63

/-- `time.Minute` in nanoseconds. -/
def timeMinute : Int := 60000000000

/-- `CalculateDecisionDeadline` from timeutil:
`reviewStartTime.Add(-time.Duration(shiftMinutes) * time.Minute)` — the
negation and the multiplication happen in `time.Duration` (int64) and wrap;
the final `Add` is exact on the unbounded time model. -/
def CalculateDecisionDeadline (reviewStartTime shiftMinutes : Int) : Int :=
  reviewStartTime + int64Wrap (int64Wrap (-shiftMinutes) * timeMinute)

/-! ## pkg/lockbox/lockbox.go — the credential cache

Sequential model of one call against the package-level cache: the state
is the pair (payloadCache, cacheExpiry); the current instant and the
outcome the collaborator fetch would have are explicit arguments. Times
are Unix nanoseconds; `time.Time{}` is instant 0. -/

structure UserTokens where
  AccessToken : String
  RefreshToken : String
deriving DecidableEq, Repr

structure LockboxPayload where
  Version : Int
  Users : List (String × UserTokens)
deriving DecidableEq, Repr

structure LockboxState where
  payloadCache : Option LockboxPayload
  cacheExpiry : Int
deriving DecidableEq, Repr

/-- The 5-minute cache TTL, in nanoseconds. -/
def lockboxTTL : Int := 300000000000

/-- The fetch-and-store tail of `getPayload`: on success the whole snapshot
is replaced and the expiry set to now + 5 minutes; on failure the error is
returned and the state is left exactly as it was. The Bool records that a
fetch was attempted. -/
def fetchAndCache (now : Int) (fetchResult : Except String LockboxPayload)
    (s : LockboxState) : Except String LockboxPayload × LockboxState × Bool :=
  match fetchResult with
  | .error e => (.error e, s, true)
  | .ok pl => (.ok pl, { payloadCache := some pl, cacheExpiry := now + lockboxTTL }, true)

/-- `getPayload`: return the cached snapshot when it is present and
`time.Now().Before(cacheExpiry)`; otherwise fetch. -/
def getPayload (now : Int) (fetchResult : Except String LockboxPayload)
    (s : LockboxState) : Except String LockboxPayload × LockboxState × Bool :=
  match s.payloadCache with
  | some pl =>
      if now < s.cacheExpiry then (.ok pl, s, false)
      else fetchAndCache now fetchResult s
  | none => fetchAndCache now fetchResult s

/-- `GetUserTokens`: `getPayload` then a lookup of the reviewer in the
snapshot; a missing entry is a not-found error, not a fetch error. -/
def GetUserTokens (now : Int) (fetchResult : Except String LockboxPayload)
    (reviewerLogin : String) (s : LockboxState) :
    Except String UserTokens × LockboxState :=
  match getPayload now fetchResult s with
  | (.error e, s2, _) => (.error e, s2)
  | (.ok pl, s2, _) =>
      match pl.Users.lookup reviewerLogin with
      | some tokens => (.ok tokens, s2)
      | none => (.error ("tokens not found for user: " ++ reviewerLogin), s2)

/-- `InvalidateCache`: payloadCache := nil and cacheExpiry := the zero time
value, unconditionally. -/
def InvalidateCache (_s : LockboxState) : LockboxState :=
  { payloadCache := none, cacheExpiry := 0 }

/-- The error a credential write-back returns: either the error of the
`getPayload` call it starts with, or the not-yet-implemented error. -/
inductive StoreTokensError
  | fetchFailed (msg : String)
  | notImplemented
deriving DecidableEq, Repr

/-- `StoreUserTokens`: getPayload first — a failure there is returned as is,
with the cache exactly as `getPayload` left it. Otherwise the payload copy
is edited (unobservable through the cache afterwards), payloadCache is set
to nil (cacheExpiry untouched), and the not-implemented error is returned. -/
def StoreUserTokens (now : Int) (fetchResult : Except String LockboxPayload)
    (s : LockboxState) : StoreTokensError × LockboxState :=
  match getPayload now fetchResult s with
  | (.error e, s2, _) => (.fetchFailed e, s2)
  | (.ok _, s2, _) => (.notImplemented, { s2 with payloadCache := none })

/-- `DeleteUserTokens`: same shape as `StoreUserTokens`. -/
def DeleteUserTokens (now : Int) (fetchResult : Except String LockboxPayload)
    (s : LockboxState) : StoreTokensError × LockboxState :=
  match getPayload now fetchResult s with
  | (.error e, s2, _) => (.fetchFailed e, s2)
  | (.ok _, s2, _) => (.notImplemented, { s2 with payloadCache := none })

/-! ### Interleaving model of concurrent `getPayload` calls

`getPayload` holds no lock between its validity check (under RLock) and
the fetch-and-store (under Lock), so a concurrent execution is an
interleaving of two atomic steps per caller: the check, and the
fetch-and-store. A schedule lists which caller moves at each instant;
`fetchCount` counts collaborator fetches. -/

inductive CallerPhase
  | ready
  | needFetch
  | finished
deriving DecidableEq, Repr

structure ConcurrentCache where
  payloadCache : Option LockboxPayload
  cacheExpiry : Int
  fetchCount : Nat
  callers : List CallerPhase
deriving DecidableEq, Repr

/-- One atomic step of caller `i`. In phase `ready` the caller runs the
RLock-protected check: a present, unexpired snapshot finishes the call,
anything else sends the caller to its fetch phase. In phase `needFetch`
the caller fetches (counted), stores the snapshot and finishes. -/
def cacheStep (now : Int) (fetched : LockboxPayload) (sys : ConcurrentCache)
    (i : Nat) : ConcurrentCache :=
  match sys.callers.get? i with
  | none => sys
  | some .ready =>
      match sys.payloadCache with
      | some _ =>
          if now < sys.cacheExpiry then
            { sys with callers := sys.callers.set i .finished }
          else
            { sys with callers := sys.callers.set i .needFetch }
      | none => { sys with callers := sys.callers.set i .needFetch }
  | some .needFetch =>
      { sys with payloadCache := some fetched
                 cacheExpiry := now + lockboxTTL
                 fetchCount := sys.fetchCount + 1
                 callers := sys.callers.set i .finished }
  | some .finished => sys

/-- Run a schedule of caller steps. -/
def cacheRun (now : Int) (fetched : LockboxPayload) (sys : ConcurrentCache)
    (sched : List Nat) : ConcurrentCache :=
  sched.foldl (cacheStep now fetched) sys

/-! ## `scanReviewRequest` — reading a review-request row back

`models.ReviewRequest` is the Go struct the scan produces; its optional
fields are pointers, modelled as `Option`. The scan reads the optional
string and timestamp columns into plain locals (a NULL becomes the zero
value, via `named.Optional` with a non-pointer destination) and then
re-creates the pointers only for non-zero values; `decided_at` alone is
scanned into a pointer and survives as stored. -/

structure ReviewRequest where
  ID : String
  ReviewerLogin : String
  NotificationID : Option String
  ProjectName : Option String
  FamilyLabel : Option String
  ReviewStartTime : Int
  CalendarSlotID : String
  DecisionDeadline : Option Int
  NonWhitelistCancelAt : Option Int
  TelegramMessageID : Option String
  Status : String
  CreatedAt : Int
  DecidedAt : Option Int
deriving DecidableEq, Repr

/-- `scanReviewRequest` from pkg/ydb, applied to a persisted row. -/
def scanReviewRequest (row : ReviewRequestRow) : ReviewRequest :=
  let notificationID : String := row.notification_id.getD ""
  let projectName : String := row.project_name.getD ""
  let familyLabel : String := row.family_label.getD ""
  let telegramMessageID : String := row.telegram_message_id.getD ""
  let decisionDeadline : Int := row.decision_deadline.getD 0
  let nonWhitelistCancelAt : Int := row.non_whitelist_cancel_at.getD 0
  { ID := row.id
    ReviewerLogin := row.reviewer_login
    NotificationID := if notificationID ≠ "" then some notificationID else none
    ProjectName := if projectName ≠ "" then some projectName else none
    FamilyLabel := if familyLabel ≠ "" then some familyLabel else none
    ReviewStartTime := row.review_start_time
    CalendarSlotID := row.calendar_slot_id
    DecisionDeadline := if decisionDeadline ≠ 0 then some decisionDeadline else none
    NonWhitelistCancelAt := if nonWhitelistCancelAt ≠ 0 then some nonWhitelistCancelAt else none
    TelegramMessageID := if telegramMessageID ≠ "" then some telegramMessageID else none
    Status := row.status
    CreatedAt := row.created_at
    DecidedAt := row.decided_at }

/-! ## Sample data used by the concrete evaluations -/

/-- A persisted row another worker already moved to APPROVED. -/
def approvedRow : ReviewRequestRow :=
  CreateReviewRequest "req-1" "alice" 1000 "slot-1" StatusApproved 500

/-- A second row in the final status APPROVED. -/
def finalRow : ReviewRequestRow :=
  CreateReviewRequest "req-2" "bob" 3000 "slot-2" StatusApproved 700

/-- A third row in the final status AUTO_CANCELLED. -/
def autoCancelledRow : ReviewRequestRow :=
  CreateReviewRequest "req-3" "carol" 4000 "slot-3" StatusAutoCancelled 900

/-- A freshly created row taken through NOT_WHITELISTED and then
WAITING_FOR_APPROVE by the store's own update operations. -/
def bothDeadlinesRow : ReviewRequestRow :=
  runUpdates (CreateReviewRequest "req-4" "dave" 1000 "slot-4" StatusUnknownProjectReview 500)
    [StoreUpdate.toNotWhitelisted 800, StoreUpdate.toWaitingForApprove 900 "tg-1"]

/-- A families list with a repeated (familyLabel, projectName) pair. -/
def dupFamilies : List ProjectFamily :=
  [{ FamilyLabel := "A", ProjectName := "p" }, { FamilyLabel := "A", ProjectName := "p" }]

/-- Prior contents of the project_families table. -/
def oldFamiliesTable : List ProjectFamily :=
  [{ FamilyLabel := "B", ProjectName := "q" }]

/-- A whitelist holding a single PROJECT entry for alice. -/
def aliceWhitelist : List WhitelistEntry :=
  [{ ReviewerLogin := "alice", EntryType := "PROJECT", Name := "go-concurrency" }]

/-- A concrete credential payload. -/
def samplePayload : LockboxPayload := { Version := 1, Users := [] }

/-- A cold concurrent cache: no snapshot, two callers about to call get. -/
def coldCache : ConcurrentCache :=
  { payloadCache := none, cacheExpiry := 0, fetchCount := 0
    callers := [CallerPhase.ready, CallerPhase.ready] }

/-- A warm concurrent cache: valid snapshot until instant 100, three callers. -/
def warmCache : ConcurrentCache :=
  { payloadCache := some samplePayload, cacheExpiry := 100, fetchCount := 0
    callers := [CallerPhase.ready, CallerPhase.ready, CallerPhase.ready] }

/-- A cache state holding a snapshot that expired at instant 10. -/
def expiredState : LockboxState :=
  { payloadCache := some samplePayload, cacheExpiry := 10 }

/-- A cache state holding a snapshot valid until instant 100. -/
def validState : LockboxState :=
  { payloadCache := some samplePayload, cacheExpiry := 100 }

/-! ## Theorems -/

/-- Claim C1, counterexample. `UpdateReviewRequestStatus` carries no
expected-status condition: against a row whose persisted status (APPROVED)
no longer matches the sweep worker's expected WAITING_FOR_APPROVE, the
write is not a no-op — it changes the record and installs the new status. -/
theorem c1_counterexample :
    approvedRow.status ≠ StatusWaitingForApprove ∧
    UpdateReviewRequestStatus approvedRow StatusAutoCancelled (some 2000) ≠ approvedRow ∧
    (UpdateReviewRequestStatus approvedRow StatusAutoCancelled (some 2000)).status =
      StatusAutoCancelled := by
  decide

/-- Claim C1, amended. The status-transition write is unconditional: it
takes no expected current status, always installs the given status and
decided_at and leaves every other column unchanged, whatever the persisted
status was. When two sweep workers both issue the write moving the same
request from WAITING_FOR_APPROVE to AUTO_CANCELLED, both writes succeed and
the second repeats the first, so the row still ends in AUTO_CANCELLED; the
store reports no conflict to either worker. -/
theorem c1_amended (r : ReviewRequestRow) (status : String) (decidedAt : Option Int) :
    (UpdateReviewRequestStatus r status decidedAt).status = status ∧
    (UpdateReviewRequestStatus r status decidedAt).decided_at = decidedAt ∧
    (UpdateReviewRequestStatus r status decidedAt).id = r.id ∧
    (UpdateReviewRequestStatus r status decidedAt).reviewer_login = r.reviewer_login ∧
    (UpdateReviewRequestStatus r status decidedAt).notification_id = r.notification_id ∧
    (UpdateReviewRequestStatus r status decidedAt).project_name = r.project_name ∧
    (UpdateReviewRequestStatus r status decidedAt).family_label = r.family_label ∧
    (UpdateReviewRequestStatus r status decidedAt).review_start_time = r.review_start_time ∧
    (UpdateReviewRequestStatus r status decidedAt).calendar_slot_id = r.calendar_slot_id ∧
    (UpdateReviewRequestStatus r status decidedAt).decision_deadline = r.decision_deadline ∧
    (UpdateReviewRequestStatus r status decidedAt).non_whitelist_cancel_at =
      r.non_whitelist_cancel_at ∧
    (UpdateReviewRequestStatus r status decidedAt).telegram_message_id =
      r.telegram_message_id ∧
    (UpdateReviewRequestStatus r status decidedAt).created_at = r.created_at ∧
    UpdateReviewRequestStatus (UpdateReviewRequestStatus r status decidedAt) status decidedAt =
      UpdateReviewRequestStatus r status decidedAt := by
  refine ⟨rfl, rfl, rfl, rfl, rfl, rfl, rfl, rfl, rfl, rfl, rfl, rfl, rfl, rfl⟩

/-- Claim C2, counterexample. APPROVED is a final status, yet the store's
status update applied to a row persisted as APPROVED moves it to CANCELLED:
the attempt is not a no-op and the transition leaves the final state. -/
theorem c2_counterexample :
    IsFinalStatus finalRow.status = true ∧
    (UpdateReviewRequestStatus finalRow StatusCancelled none).status = StatusCancelled ∧
    (UpdateReviewRequestStatus finalRow StatusCancelled none).status ≠ finalRow.status := by
  decide

/-- Claim C2, amended. `IsFinalStatus` classifies the four final statuses,
but no store update consults it: applied to a row whose persisted status is
final, the status write still installs the new status, so the status stays
at the old final value exactly when the new value equals it — finality is
not enforced by the store. -/
theorem c2_amended (r : ReviewRequestRow) (status : String) (decidedAt : Option Int)
    (_h : IsFinalStatus r.status = true) :
    (UpdateReviewRequestStatus r status decidedAt).status = status ∧
    ((UpdateReviewRequestStatus r status decidedAt).status = r.status ↔ status = r.status) :=
  ⟨rfl, Iff.rfl⟩

/-- Claim C2, witness for the amended theorem at the AUTO_CANCELLED row. -/
theorem c2_amended_witness :
    IsFinalStatus autoCancelledRow.status = true ∧
    (UpdateReviewRequestStatus autoCancelledRow StatusApproved none).status = StatusApproved :=
  ⟨by decide, (c2_amended autoCancelledRow StatusApproved none (by decide)).1⟩

theorem runUpdates_cons (r : ReviewRequestRow) (op : StoreUpdate) (ops : List StoreUpdate) :
    runUpdates r (op :: ops) = runUpdates (applyUpdate r op) ops :=
  rfl

/-- decision_deadline is unset after a run of store updates exactly when it
was unset before and no `toWaitingForApprove` write occurred: no update
ever clears the column. -/
theorem runUpdates_decision_deadline_none (ops : List StoreUpdate) :
    ∀ r : ReviewRequestRow,
      (runUpdates r ops).decision_deadline = none ↔
        (r.decision_deadline = none ∧ hasWaitingUpdate ops = false) := by
  induction ops with
  | nil =>
    intro r
    simp [runUpdates, hasWaitingUpdate]
  | cons op rest ih =>
    intro r
    rw [runUpdates_cons, ih]
    cases op with
    | setStatus s d =>
      simp [applyUpdate, UpdateReviewRequestStatus, hasWaitingUpdate, isWaitingUpdate]
    | setProjectInfo p f n =>
      simp [applyUpdate, UpdateReviewRequestWithProjectInfo, hasWaitingUpdate, isWaitingUpdate]
    | toWaitingForApprove d t =>
      simp [applyUpdate, UpdateReviewRequestToWaitingForApprove, hasWaitingUpdate, isWaitingUpdate]
    | toNotWhitelisted c =>
      simp [applyUpdate, UpdateReviewRequestToNotWhitelisted, hasWaitingUpdate, isWaitingUpdate]

/-- non_whitelist_cancel_at is unset after a run of store updates exactly
when it was unset before and no `toNotWhitelisted` write occurred. -/
theorem runUpdates_cancel_at_none (ops : List StoreUpdate) :
    ∀ r : ReviewRequestRow,
      (runUpdates r ops).non_whitelist_cancel_at = none ↔
        (r.non_whitelist_cancel_at = none ∧ hasNotWhitelistedUpdate ops = false) := by
  induction ops with
  | nil =>
    intro r
    simp [runUpdates, hasNotWhitelistedUpdate]
  | cons op rest ih =>
    intro r
    rw [runUpdates_cons, ih]
    cases op with
    | setStatus s d =>
      simp [applyUpdate, UpdateReviewRequestStatus, hasNotWhitelistedUpdate,
        isNotWhitelistedUpdate]
    | setProjectInfo p f n =>
      simp [applyUpdate, UpdateReviewRequestWithProjectInfo, hasNotWhitelistedUpdate,
        isNotWhitelistedUpdate]
    | toWaitingForApprove d t =>
      simp [applyUpdate, UpdateReviewRequestToWaitingForApprove, hasNotWhitelistedUpdate,
        isNotWhitelistedUpdate]
    | toNotWhitelisted c =>
      simp [applyUpdate, UpdateReviewRequestToNotWhitelisted, hasNotWhitelistedUpdate,
        isNotWhitelistedUpdate]

/-- Claim C3, counterexample. A state reachable by the store's own create
and update operations — create, then the NOT_WHITELISTED update, then the
WAITING_FOR_APPROVE update — carries BOTH deadline columns non-null, and
carries non_whitelist_cancel_at while the status is WAITING_FOR_APPROVE,
violating both the at-most-one and the status-matching parts of the claim. -/
theorem c3_counterexample :
    bothDeadlinesRow.decision_deadline = some 900 ∧
    bothDeadlinesRow.non_whitelist_cancel_at = some 800 ∧
    bothDeadlinesRow.status = StatusWaitingForApprove := by
  decide

/-- Claim C3, amended. Creation leaves both deadline columns null, and each
deadline-setting update sets only its own column while no operation ever
clears either: in any state reachable from a create by store updates,
decision_deadline is non-null exactly when some `toWaitingForApprove` write
occurred and non_whitelist_cancel_at is non-null exactly when some
`toNotWhitelisted` write occurred — independent of the current status, and
persisting into final statuses. At most one column is non-null only in runs
that use at most one of the two deadline-setting operations. -/
theorem c3_amended (id reviewerLogin : String) (reviewStartTime : Int)
    (calendarSlotID status0 : String) (createdAt : Int) (ops : List StoreUpdate) :
    ((runUpdates (CreateReviewRequest id reviewerLogin reviewStartTime calendarSlotID
        status0 createdAt) ops).decision_deadline = none ↔ hasWaitingUpdate ops = false) ∧
    ((runUpdates (CreateReviewRequest id reviewerLogin reviewStartTime calendarSlotID
        status0 createdAt) ops).non_whitelist_cancel_at = none ↔
      hasNotWhitelistedUpdate ops = false) := by
  constructor
  · rw [runUpdates_decision_deadline_none]
    simp [CreateReviewRequest]
  · rw [runUpdates_cancel_at_none]
    simp [CreateReviewRequest]

/-- When the insert loop commits, the resulting table is the starting table
followed by everything inserted. -/
theorem insertFamiliesLoop_eq_append :
    ∀ (l acc t : List ProjectFamily), insertFamiliesLoop acc l = some t → t = acc ++ l := by
  intro l
  induction l with
  | nil =>
    intro acc t h
    simp [insertFamiliesLoop] at h
    simp [h.symm]
  | cons f rest ih =>
    intro acc t h
    rw [insertFamiliesLoop] at h
    by_cases hf : f ∈ acc
    · rw [if_pos hf] at h
      exact absurd h (by simp)
    · rw [if_neg hf] at h
      have := ih (acc ++ [f]) t h
      simpa using this

/-- When the pairs never repeat, every insert succeeds. -/
theorem insertFamiliesLoop_nodup :
    ∀ (l acc : List ProjectFamily), (acc ++ l).Nodup →
      insertFamiliesLoop acc l = some (acc ++ l) := by
  intro l
  induction l with
  | nil =>
    intro acc _
    simp [insertFamiliesLoop]
  | cons f rest ih =>
    intro acc h
    have hf : f ∉ acc := by
      have hd := List.disjoint_of_nodup_append h
      intro hmem
      exact hd hmem (by simp)
    rw [insertFamiliesLoop, if_neg hf]
    have harr : (acc ++ [f]) ++ rest = acc ++ (f :: rest) := by simp
    have := ih (acc ++ [f]) (by rw [harr]; exact h)
    rw [this, harr]

/-- Claim C4, counterexample. With a families list repeating the pair
(A, p), the primary key (family_label, project_name) makes the second
INSERT fail, the transaction aborts, and the full read still returns the
old contents — not the multiset of the input list. -/
theorem c4_counterexample :
    UpsertProjectFamilies dupFamilies oldFamiliesTable = (false, oldFamiliesTable) ∧
    ¬ (GetAllProjectFamilies
        (UpsertProjectFamilies dupFamilies oldFamiliesTable).2).Perm dupFamilies := by
  constructor
  · decide
  · intro h
    have := h.length_eq
    simp [UpsertProjectFamilies, insertFamiliesLoop, dupFamilies, oldFamiliesTable,
      GetAllProjectFamilies] at this

/-- Claim C4, amended. For every families list whose (familyLabel,
projectName) pairs are pairwise distinct, `UpsertProjectFamilies` commits
and a full read returns exactly that list, regardless of the prior
contents; and for every input, the visible table is either the complete
new list or the untouched old contents — never a partial mix (the
clear-then-insert runs inside one transaction). Lists repeating a pair
abort on the duplicate primary key and leave the old contents visible. -/
theorem c4_amended (families table : List ProjectFamily) :
    (families.Nodup →
      UpsertProjectFamilies families table = (true, families) ∧
      GetAllProjectFamilies (UpsertProjectFamilies families table).2 = families) ∧
    ((UpsertProjectFamilies families table).2 = families ∨
      (UpsertProjectFamilies families table).2 = table) := by
  constructor
  · intro hnd
    have hloop : insertFamiliesLoop [] families = some families := by
      have := insertFamiliesLoop_nodup families [] (by simpa using hnd)
      simpa using this
    constructor
    · rw [UpsertProjectFamilies, hloop]
    · rw [UpsertProjectFamilies, hloop]
      rfl
  · cases hloop : insertFamiliesLoop [] families with
    | none =>
      right
      rw [UpsertProjectFamilies, hloop]
    | some t =>
      left
      have ht : t = families := by
        simpa using insertFamiliesLoop_eq_append families [] t hloop
      rw [UpsertProjectFamilies, hloop, ht]

/-- Claim C4, witness for the amended theorem: a duplicate-free list
replaces prior contents and reads back exactly. -/
theorem c4_amended_witness :
    oldFamiliesTable.Nodup ∧
    GetAllProjectFamilies (UpsertProjectFamilies oldFamiliesTable dupFamilies).2 =
      oldFamiliesTable :=
  ⟨by decide, ((c4_amended oldFamiliesTable dupFamilies).1 (by decide)).2⟩

/-- Claim C5, confirmed. `IsInWhitelist` is true exactly when the table
holds, for this reviewer, a PROJECT entry named like the project or a
FAMILY entry named like the family label; and when the reviewer has no
entry at all the answer is false — absence is not an error, the COUNT is
simply zero. A PROJECT match alone suffices, with no FAMILY entry present
(see the witness). -/
theorem c5_whitelist (wl : List WhitelistEntry)
    (reviewerLogin projectName familyLabel : String) :
    (IsInWhitelist wl reviewerLogin projectName familyLabel = true ↔
      ∃ e ∈ wl, e.ReviewerLogin = reviewerLogin ∧
        ((e.EntryType = EntryTypeProject ∧ e.Name = projectName) ∨
          (e.EntryType = EntryTypeFamily ∧ e.Name = familyLabel))) ∧
    ((∀ e ∈ wl, e.ReviewerLogin ≠ reviewerLogin) →
      IsInWhitelist wl reviewerLogin projectName familyLabel = false) := by
  have hiff : IsInWhitelist wl reviewerLogin projectName familyLabel = true ↔
      ∃ e ∈ wl, e.ReviewerLogin = reviewerLogin ∧
        ((e.EntryType = EntryTypeProject ∧ e.Name = projectName) ∨
          (e.EntryType = EntryTypeFamily ∧ e.Name = familyLabel)) := by
    rw [IsInWhitelist, decide_eq_true_eq, List.countP_pos_iff]
    constructor
    · rintro ⟨e, he, hmatch⟩
      refine ⟨e, he, ?_⟩
      simpa [whitelistRowMatches] using hmatch
    · rintro ⟨e, he, hmatch⟩
      refine ⟨e, he, ?_⟩
      simpa [whitelistRowMatches] using hmatch
  refine ⟨hiff, ?_⟩
  intro hnone
  cases hb : IsInWhitelist wl reviewerLogin projectName familyLabel with
  | false => rfl
  | true =>
    obtain ⟨e, he, hr, _⟩ := hiff.mp hb
    exact absurd hr (hnone e he)

/-- Claim C5, witness: alice's single PROJECT entry makes the check true
for project go-concurrency and family label `A - B` with no FAMILY entry
present, and a reviewer with no entries gets false. -/
theorem c5_whitelist_witness :
    IsInWhitelist aliceWhitelist "alice" "go-concurrency" "A - B" = true ∧
    IsInWhitelist aliceWhitelist "zed" "go-concurrency" "A - B" = false :=
  ⟨(c5_whitelist aliceWhitelist "alice" "go-concurrency" "A - B").1.mpr
      ⟨{ ReviewerLogin := "alice", EntryType := "PROJECT", Name := "go-concurrency" },
        by simp [aliceWhitelist], rfl, Or.inl ⟨rfl, rfl⟩⟩,
    (c5_whitelist aliceWhitelist "zed" "go-concurrency" "A - B").2 (by decide)⟩

/-- Integers inside the int64 range are fixed by the wraparound. -/
theorem int64Wrap_eq_self {n : Int} (h1 : -(2 ^ 63) ≤ n) (h2 : n < 2 ^ 63) :
    int64Wrap n = n := by
  rw [int64Wrap]
  have h3 : 0 ≤ n + 2 ^ 63 := by linarith
  have h4 : n + 2 ^ 63 < 2 ^ 64 := by
    have he : (2 : Int) ^ 64 = 2 ^ 63 + 2 ^ 63 := by norm_num
    linarith
  rw [Int.emod_eq_of_lt h3 h4]
  ring

/-- Claim C6, counterexample. The shift is scaled to nanoseconds inside
`time.Duration` (64-bit), which wraps: at shiftMinutes = 2^62 the product
with `time.Minute` is an exact multiple of 2^64, the duration collapses to
zero, and the function returns the review start time unchanged instead of
the start time minus 2^62 minutes. -/
theorem c6_counterexample :
    CalculateDecisionDeadline 0 (2 ^ 62) = 0 ∧
    (0 : Int) ≠ 0 - 2 ^ 62 * timeMinute := by
  constructor
  · decide
  · decide

/-- Claim C6, amended. Whenever the shift converted to nanoseconds fits in
a 64-bit signed duration — which covers every realistic shift, including
the default 20 minutes — the decision deadline is exactly the review start
time minus shiftMinutes minutes; outside that range the nanosecond product
wraps modulo 2^64. -/
theorem c6_amended (reviewStartTime shiftMinutes : Int)
    (h1 : -(2 ^ 63) < shiftMinutes * timeMinute)
    (h2 : shiftMinutes * timeMinute < 2 ^ 63) :
    CalculateDecisionDeadline reviewStartTime shiftMinutes =
      reviewStartTime - shiftMinutes * timeMinute := by
  have hMpos : (0 : Int) < timeMinute := by norm_num [timeMinute]
  have hup : shiftMinutes ≤ 2 ^ 63 := by
    by_contra hc
    push_neg at hc
    have hstep : (2 : Int) ^ 63 * timeMinute ≤ shiftMinutes * timeMinute :=
      mul_le_mul_of_nonneg_right (le_of_lt hc) (le_of_lt hMpos)
    have hbig : (2 : Int) ^ 63 < 2 ^ 63 * timeMinute := by
      norm_num [timeMinute]
    linarith
  have hlo : -(2 ^ 63) < shiftMinutes := by
    by_contra hc
    push_neg at hc
    have hstep : shiftMinutes * timeMinute ≤ -(2 ^ 63) * timeMinute :=
      mul_le_mul_of_nonneg_right hc (le_of_lt hMpos)
    have hbig : -(2 : Int) ^ 63 * timeMinute < -(2 ^ 63) := by
      norm_num [timeMinute]
    linarith
  have hw1 : int64Wrap (-shiftMinutes) = -shiftMinutes :=
    int64Wrap_eq_self (by linarith) (by linarith)
  rw [CalculateDecisionDeadline, hw1]
  have hdist : -shiftMinutes * timeMinute = -(shiftMinutes * timeMinute) := by ring
  rw [hdist, int64Wrap_eq_self (by linarith) (by linarith)]
  ring

/-- Claim C6, witness for the amended theorem at the default shift of 20
minutes. -/
theorem c6_amended_witness :
    CalculateDecisionDeadline 100 20 = 100 - 20 * timeMinute :=
  c6_amended 100 20 (by norm_num [timeMinute]) (by norm_num [timeMinute])

/-- Claim C7, counterexample. `getPayload` drops the read lock between the
validity check and the fetch, so nothing makes the fetch single-flight:
with two concurrent callers against an absent snapshot, the interleaving
check / check / fetch / fetch performs two fetches from the secret-store
collaborator, not exactly one. -/
theorem c7_counterexample :
    (cacheRun 0 samplePayload coldCache [0, 1, 0, 1]).fetchCount = 2 ∧
    (2 : Nat) ≠ 1 := by
  decide

/-- Claim C7, amended. Concurrent gets under a present, unexpired snapshot
trigger no fetch at all: every schedule leaves the fetch count unchanged.
Against an absent or expired snapshot there is no single-flight guard —
each caller whose check runs before a completed fetch refreshes on its
own, so N concurrent calls can fetch up to N times (two in the exhibited
interleaving). -/
theorem c7_amended (now : Int) (fetched : LockboxPayload) (sched : List Nat) :
    ∀ sys : ConcurrentCache,
      sys.payloadCache.isSome = true →
      now < sys.cacheExpiry →
      (∀ c ∈ sys.callers, c ≠ CallerPhase.needFetch) →
      (cacheRun now fetched sys sched).fetchCount = sys.fetchCount := by
  induction sched with
  | nil =>
    intro sys _ _ _
    rfl
  | cons i rest ih =>
    intro sys hcache hvalid hphases
    obtain ⟨pl, hpl⟩ := Option.isSome_iff_exists.mp hcache
    have hstep : cacheStep now fetched sys i = sys ∨
        cacheStep now fetched sys i =
          { sys with callers := sys.callers.set i CallerPhase.finished } := by
      rw [cacheStep]
      cases hg : sys.callers.get? i with
      | none => exact Or.inl rfl
      | some c =>
        cases c with
        | ready =>
          rw [hpl]
          rw [if_pos hvalid]
          exact Or.inr rfl
        | needFetch =>
          exact absurd rfl (hphases _ (List.get?_mem hg))
        | finished => exact Or.inl rfl
    have hrun : cacheRun now fetched sys (i :: rest) =
        cacheRun now fetched (cacheStep now fetched sys i) rest := rfl
    rcases hstep with heq | heq
    · rw [hrun, heq]
      exact ih sys hcache hvalid hphases
    · rw [hrun, heq]
      exact ih _ hcache hvalid (by
        intro c hc
        rcases List.mem_or_eq_of_mem_set hc with hmem | hfin
        · exact hphases c hmem
        · rw [hfin]
          intro hcon
          exact CallerPhase.noConfusion hcon)

/-- Claim C7, witness for the amended theorem: three callers against a
snapshot valid until instant 100 perform no fetch under a full schedule. -/
theorem c7_amended_witness :
    (cacheRun 50 samplePayload warmCache [0, 1, 2, 0, 1]).fetchCount =
      warmCache.fetchCount :=
  c7_amended 50 samplePayload [0, 1, 2, 0, 1] warmCache (by decide) (by decide) (by decide)

/-- A present, unexpired snapshot is returned as-is, with no fetch. -/
theorem getPayload_valid {now : Int} {fr : Except String LockboxPayload}
    {s : LockboxState} {pl : LockboxPayload}
    (hpl : s.payloadCache = some pl) (hlt : now < s.cacheExpiry) :
    getPayload now fr s = (.ok pl, s, false) := by
  rw [getPayload, hpl]
  simp [hlt]

/-- An absent or expired snapshot routes the call to the fetch path. -/
theorem getPayload_fetches {now : Int} {fr : Except String LockboxPayload}
    {s : LockboxState} (h : s.payloadCache = none ∨ s.cacheExpiry ≤ now) :
    getPayload now fr s = fetchAndCache now fr s := by
  rcases h with h | h
  · rw [getPayload, h]
  · cases hc : s.payloadCache with
    | none => rw [getPayload, hc]
    | some pl =>
      rw [getPayload, hc]
      simp [not_lt.mpr h]

/-- A fetch is attempted exactly when the snapshot is absent or expired. -/
theorem getPayload_attempted (now : Int) (fr : Except String LockboxPayload)
    (s : LockboxState) :
    (getPayload now fr s).2.2 = true ↔
      (s.payloadCache = none ∨ s.cacheExpiry ≤ now) := by
  cases hc : s.payloadCache with
  | none =>
    rw [getPayload_fetches (Or.inl hc)]
    cases fr with
    | error e => simp [fetchAndCache, hc]
    | ok pl => simp [fetchAndCache, hc]
  | some pl =>
    by_cases hlt : now < s.cacheExpiry
    · rw [getPayload_valid hc hlt]
      simp [hc, not_le.mpr hlt]
    · rw [getPayload_fetches (Or.inr (not_lt.mp hlt))]
      cases fr with
      | error e => simp [fetchAndCache, not_lt.mp hlt]
      | ok pl2 => simp [fetchAndCache, not_lt.mp hlt]

/-- Only a failed fetch produces an error result, and it leaves the state
exactly as it was. -/
theorem getPayload_error_inv {now : Int} {fr : Except String LockboxPayload}
    {s : LockboxState} {e : String} {s2 : LockboxState} {b : Bool}
    (h : getPayload now fr s = (.error e, s2, b)) :
    fr = .error e ∧ s2 = s ∧ b = true := by
  cases hc : s.payloadCache with
  | none =>
    rw [getPayload_fetches (Or.inl hc)] at h
    cases fr with
    | error e2 =>
      simp [fetchAndCache] at h
      exact ⟨by rw [h.1], h.2.1.symm, h.2.2⟩
    | ok pl => simp [fetchAndCache] at h
  | some pl =>
    by_cases hlt : now < s.cacheExpiry
    · rw [getPayload_valid hc hlt] at h
      simp at h
    · rw [getPayload_fetches (Or.inr (not_lt.mp hlt))] at h
      cases fr with
      | error e2 =>
        simp [fetchAndCache] at h
        exact ⟨by rw [h.1], h.2.1.symm, h.2.2⟩
      | ok pl2 => simp [fetchAndCache] at h

/-- Claim C8, counterexample. Against a snapshot that expired at instant 10,
a failed fetch at instant 20 returns the fetch error and leaves the cache
holding the stale snapshot: the failed attempt does not leave the cache
empty, contrary to the claim. -/
theorem c8_counterexample :
    getPayload 20 (Except.error "boom") expiredState =
      (.error "boom", expiredState, true) ∧
    expiredState.payloadCache ≠ none := by
  refine ⟨rfl, ?_⟩
  decide

/-- Claim C8, amended. A fetch is attempted exactly when the snapshot is
nil or its expiry has been reached; a present unexpired snapshot is
returned as-is with no fetch; a failed fetch leaves the cache state
unchanged — the snapshot slot stays nil if it was nil, and a stale expired
snapshot remains stored — so any later get still attempts a fetch; and
`InvalidateCache` unconditionally clears the snapshot, after which the next
get always attempts a fetch. -/
theorem c8_amended (now : Int) (fetchResult : Except String LockboxPayload)
    (s : LockboxState) :
    ((getPayload now fetchResult s).2.2 = true ↔
      (s.payloadCache = none ∨ s.cacheExpiry ≤ now)) ∧
    (∀ pl, s.payloadCache = some pl → now < s.cacheExpiry →
      getPayload now fetchResult s = (.ok pl, s, false)) ∧
    (∀ e, fetchResult = .error e →
      (getPayload now fetchResult s).2.1 = s ∧
      ((getPayload now fetchResult s).2.2 = true →
        getPayload now fetchResult s = (.error e, s, true))) ∧
    InvalidateCache s = { payloadCache := none, cacheExpiry := 0 } ∧
    (∀ now2 fr2, (getPayload now2 fr2 (InvalidateCache s)).2.2 = true) ∧
    (∀ e now2 fr2, fetchResult = .error e →
      (getPayload now fetchResult s).2.2 = true → now ≤ now2 →
      (getPayload now2 fr2 (getPayload now fetchResult s).2.1).2.2 = true) := by
  refine ⟨getPayload_attempted now fetchResult s, ?_, ?_, rfl, ?_, ?_⟩
  · intro pl hpl hlt
    exact getPayload_valid hpl hlt
  · intro e hfr
    subst hfr
    cases hc : s.payloadCache with
    | none =>
      rw [getPayload_fetches (Or.inl hc)]
      exact ⟨rfl, fun _ => rfl⟩
    | some pl =>
      by_cases hlt : now < s.cacheExpiry
      · rw [getPayload_valid hc hlt]
        exact ⟨rfl, fun habs => by simp at habs⟩
      · rw [getPayload_fetches (Or.inr (not_lt.mp hlt))]
        exact ⟨rfl, fun _ => rfl⟩
  · intro now2 fr2
    rw [getPayload_attempted]
    exact Or.inl rfl
  · intro e now2 fr2 hfr hatt hle
    subst hfr
    have hcond := (getPayload_attempted now (Except.error e) s).mp hatt
    have hstate : (getPayload now (Except.error e) s).2.1 = s := by
      rw [getPayload_fetches hcond]
      rfl
    rw [hstate, getPayload_attempted]
    rcases hcond with h | h
    · exact Or.inl h
    · exact Or.inr (le_trans h hle)

/-- Claim C8, witness for the amended theorem: a get at instant 50 under a
snapshot valid until instant 100 returns it unchanged with no fetch. -/
theorem c8_amended_witness :
    getPayload 50 (Except.ok samplePayload) validState =
      (.ok samplePayload, validState, false) :=
  (c8_amended 50 (Except.ok samplePayload) validState).2.1 samplePayload rfl (by decide)

/-- Claim C9, counterexample. `StoreUserTokens` starts by obtaining the
current payload; when the cache holds only an expired snapshot and the
fetch fails, the call returns the fetch error — not the NotImplemented
error — and the stale snapshot is left in the cache, not invalidated. -/
theorem c9_counterexample :
    StoreUserTokens 20 (Except.error "down") expiredState =
      (.fetchFailed "down", expiredState) ∧
    StoreTokensError.fetchFailed "down" ≠ StoreTokensError.notImplemented ∧
    expiredState.payloadCache ≠ none := by
  refine ⟨rfl, ?_, ?_⟩
  · decide
  · decide

/-- Claim C9, amended. Every call to the credential write-backs fails, but
with a case split: when the current payload can be obtained (from the cache
or by a successful fetch) the call clears the cached snapshot and returns
the NotImplemented error; when the initial payload fetch fails, the call
returns that fetch error and leaves the cache exactly as the failed get
left it — unchanged, not invalidated. -/
theorem c9_amended (now : Int) (fetchResult : Except String LockboxPayload)
    (s : LockboxState) :
    (∀ e s2 b, getPayload now fetchResult s = (.error e, s2, b) →
      StoreUserTokens now fetchResult s = (.fetchFailed e, s) ∧
      DeleteUserTokens now fetchResult s = (.fetchFailed e, s) ∧ s2 = s) ∧
    (∀ pl s2 b, getPayload now fetchResult s = (.ok pl, s2, b) →
      StoreUserTokens now fetchResult s =
        (.notImplemented, { s2 with payloadCache := none }) ∧
      DeleteUserTokens now fetchResult s =
        (.notImplemented, { s2 with payloadCache := none })) := by
  constructor
  · intro e s2 b h
    obtain ⟨_, hs2, _⟩ := getPayload_error_inv h
    subst hs2
    refine ⟨?_, ?_, rfl⟩
    · unfold StoreUserTokens
      rw [h]
    · unfold DeleteUserTokens
      rw [h]
  · intro pl s2 b h
    constructor
    · unfold StoreUserTokens
      rw [h]
    · unfold DeleteUserTokens
      rw [h]

/-- Claim C9, witness for the amended theorem: under a valid snapshot the
write-back returns NotImplemented and clears the snapshot (expiry kept, as
in the source, which only nils the payload pointer). -/
theorem c9_amended_witness :
    StoreUserTokens 50 (Except.ok samplePayload) validState =
      (.notImplemented, { payloadCache := none, cacheExpiry := 100 }) :=
  (((c9_amended 50 (Except.ok samplePayload) validState).2 samplePayload validState false)
    rfl).1

/-- Claim C10, confirmed. The read path scans each optional timestamp and
string column (other than decided_at) through a plain zero-initialised
local and re-wraps only non-zero values, so a stored 0 timestamp or empty
string is indistinguishable from NULL: scanning a row whose column holds
the zero value yields exactly the same struct as scanning the row with the
column absent, with the field unset — a write-then-read round trip does
not preserve such values. -/
theorem c10_scan_zero_collapse (row : ReviewRequestRow) :
    scanReviewRequest { row with decision_deadline := some 0 } =
      scanReviewRequest { row with decision_deadline := none } ∧
    scanReviewRequest { row with non_whitelist_cancel_at := some 0 } =
      scanReviewRequest { row with non_whitelist_cancel_at := none } ∧
    scanReviewRequest { row with notification_id := some "" } =
      scanReviewRequest { row with notification_id := none } ∧
    scanReviewRequest { row with project_name := some "" } =
      scanReviewRequest { row with project_name := none } ∧
    scanReviewRequest { row with family_label := some "" } =
      scanReviewRequest { row with family_label := none } ∧
    scanReviewRequest { row with telegram_message_id := some "" } =
      scanReviewRequest { row with telegram_message_id := none } ∧
    (scanReviewRequest { row with decision_deadline := some 0 }).DecisionDeadline = none ∧
    (scanReviewRequest { row with decided_at := some 0 }).DecidedAt = some 0 := by
  refine ⟨rfl, rfl, ?_, ?_, ?_, ?_, ?_, rfl⟩
  · simp [scanReviewRequest]
  · simp [scanReviewRequest]
  · simp [scanReviewRequest]
  · simp [scanReviewRequest]
  · simp [scanReviewRequest]

end GuardBot
